import Mathlib

/-!
Verification of the museum room layout logic (src/src/main.js and the
unnamed revisions of the same file).  The layout arithmetic of the
portrait loop, the door toggle, the image modal and the texture-load
callbacks are embedded shallowly; JavaScript numbers are modelled as
exact rationals, and the two rotation constants (multiples of pi plus a
rational offset) as exact symbolic angles.
-/

namespace Museum

/-- Room extents, from `const ROOM = { width: 20, height: 4, depth: 12 }`. -/
structure Room where
  width : ℚ
  height : ℚ
  depth : ℚ
deriving DecidableEq, Repr

/-- The configured room, `src/src/main.js` line 387. -/
def ROOM : Room := ⟨20, 4, 12⟩

/-- From `const GAP_WORLD_UNITS = 1;` (line 389). -/
def GAP_WORLD_UNITS : ℚ := 1

/-- From `const PORTRAIT_FILES = ['IMG_3400.JPG', 'IMG_3402.JPG', 'IMG_3403.JPG'];`. -/
def PORTRAIT_FILES : List String := ["IMG_3400.JPG", "IMG_3402.JPG", "IMG_3403.JPG"]

/-- A computed frame placement: the world position handed to `createFrame`
in the portrait loop (`x: leftX, y: portraitY, z: z`). -/
structure Placement where
  x : ℚ
  y : ℚ
  z : ℚ
deriving DecidableEq, Repr

/-- From `const segment = portraitCount === 1 ? 0 : usableDepth / (portraitCount - 1);`
with `usableDepth = ROOM.depth - padding * 2 - GAP_WORLD_UNITS * 2` inlined
(lines 633-635 of `src/src/main.js`). -/
def segment (span p g : ℚ) (count : ℕ) : ℚ :=
  if count = 1 then 0 else (span - p * 2 - g * 2) / ((count : ℚ) - 1)

/-- From `const z = -ROOM.depth / 2 + padding + GAP_WORLD_UNITS + segment * i;`
(line 640 of `src/src/main.js`). -/
def zOf (span p g : ℚ) (count i : ℕ) : ℚ :=
  -span / 2 + p + g + segment span p g count * (i : ℚ)

/-- The portrait layout block of `src/src/main.js` lines 630-653, as a
function of the values it reads: the `if (portraitCount > 0)` guard, then
for each index the placement
`x = -ROOM.width / 2 + GAP_WORLD_UNITS + portraitFrameDepth / 2`,
`y = ROOM.height / 2`, `z` as in `zOf`. -/
def placeOnWall (room : Room) (files : List String) (p g d : ℚ) : List Placement :=
  if 0 < files.length then
    (List.range files.length).map (fun i =>
      ⟨-room.width / 2 + g + d / 2, room.height / 2, zOf room.depth p g files.length i⟩)
  else []

/-- The portrait layout actually built at startup: `padding = 0.6`,
`portraitFrameDepth = 0.06`, files and gap from the configuration constants. -/
def portraitLayout : List Placement :=
  placeOnWall ROOM PORTRAIT_FILES (6/10) GAP_WORLD_UNITS (6/100)

/-- The z coordinate of the i-th placement of the layout (0 when out of range). -/
def zAt (room : Room) (files : List String) (p g d : ℚ) (i : ℕ) : ℚ :=
  ((placeOnWall room files p g d).map Placement.z).getD i 0

/-- The position formula the spec asserts (section 4.1 and C1):
`position_i = -span/2 + edgePadding + i * (usableSpan / (N - 1))` with
`usableSpan = span - 2 * edgePadding`.  Stated from the spec's words, for
comparison against the code's `zOf`. -/
def specClaimedPosition (span p : ℚ) (n i : ℕ) : ℚ :=
  -span / 2 + p + (i : ℚ) * ((span - 2 * p) / ((n : ℚ) - 1))

/-- An exact angle: a rational multiple of pi plus a rational constant, so
that the `Math.PI`-based rotation constants stay exact and decidable. -/
structure Angle where
  piCoeff : ℚ
  const : ℚ
deriving DecidableEq, Repr

/-- The closed-door rotation `0`. -/
def zeroAngle : Angle := ⟨0, 0⟩

/-- From `const DOOR_OPEN_ANGLE = -Math.PI / 2 + 0.05;` (line 691). -/
def DOOR_OPEN_ANGLE : Angle := ⟨-(1/2), 5/100⟩

/-- The two module-level door variables, `let doorOpen` and
`let doorTargetRotation` (line 691). -/
structure DoorState where
  doorOpen : Bool
  doorTargetRotation : Angle
deriving DecidableEq, Repr

/-- From `let doorOpen = false; let doorTargetRotation = 0;`. -/
def initDoor : DoorState := ⟨false, zeroAngle⟩

/-- From `function toggleDoor() { doorOpen = !doorOpen; doorTargetRotation = doorOpen ? DOOR_OPEN_ANGLE : 0; }`
(line 692 of `src/src/main.js`; identical in both unnamed revisions). -/
def toggleDoor (s : DoorState) : DoorState :=
  let o := !s.doorOpen
  ⟨o, if o then DOOR_OPEN_ANGLE else zeroAngle⟩

/-- The door-state invariant the program maintains: the target rotation
matches the flag.  It holds at startup and after every toggle. -/
def DoorConsistent (s : DoorState) : Prop :=
  s.doorTargetRotation = if s.doorOpen then DOOR_OPEN_ANGLE else zeroAngle

/-- The image modal DOM state: the container's `style.display` and the
`img` element's `src` and `alt` attributes. -/
structure ImageModalState where
  display : String
  src : String
  alt : String
deriving DecidableEq, Repr

/-- The modal as created: `display: 'none'` in its style object, empty
`src` and `alt` on the fresh `img` element. -/
def initModal : ImageModalState := ⟨"none", "", ""⟩

/-- From `function openImageModal(src, alt = '') { if (!src) return; imgEl.src = src; imgEl.alt = alt; imgModal.style.display = 'flex'; }`
(line 707 of `src/src/main.js`); the falsy string in JavaScript is the
empty string. -/
def openImageModal (src : String) (alt : String) (s : ImageModalState) : ImageModalState :=
  if src = "" then s else ⟨"flex", src, alt⟩

/-- A material of the thumb mesh: the dark placeholder
`new THREE.MeshBasicMaterial({ color: 0x111111 })` or a textured material
built by the success callback from the loaded texture's URL. -/
inductive Material where
  | placeholderColor (color : ℕ)
  | textured (url : String)
deriving DecidableEq, Repr

/-- The per-frame state the `loader.load` callbacks in `createFrame` can
touch: the thumb mesh's material, the frame's placement, and whether any
error indication was surfaced to the user. -/
structure FrameState where
  material : Material
  placement : Placement
  errorShown : Bool
deriving DecidableEq, Repr

/-- A frame as `createFrame` builds it before any load completes: the
thumb mesh carries the placeholder material and no error is shown. -/
def initFrame (pl : Placement) : FrameState := ⟨.placeholderColor 0x111111, pl, false⟩

/-- Outcome of a `loader.load` call: the success callback's texture or the
error callback's argument. -/
inductive LoadResult where
  | success (url : String)
  | failure (err : String)

/-- The two `loader.load` callbacks of `createFrame` (lines 545-560): on
success `thumbMesh.material = new THREE.MeshBasicMaterial({ map: tex })`;
on failure only `console.warn('Failed to load image for frame:', ...)`
runs, which changes no scene or DOM state. -/
def applyLoad (s : FrameState) : LoadResult → FrameState
  | .success url => { s with material := .textured url }
  | .failure _ => s

/-- The module-level bindings the portrait layout block reads, together
with mutable globals unrelated to it (the door flag and the popup text). -/
structure SceneEnv where
  room : Room
  gap : ℚ
  files : List String
  padding : ℚ
  frameDepth : ℚ
  doorOpen : Bool
  popupText : String

/-- Running the portrait layout block in an environment: it reads only the
room, the gap constant, the file list, the padding and the frame depth. -/
def layoutInEnv (e : SceneEnv) : List Placement :=
  placeOnWall e.room e.files e.padding e.gap e.frameDepth

lemma zAt_eq (room : Room) (files : List String) (p g d : ℚ) (i : ℕ)
    (hi : i < files.length) :
    zAt room files p g d i = zOf room.depth p g files.length i := by
  unfold zAt placeOnWall
  rw [if_pos (Nat.pos_of_ne_zero (by omega))]
  rw [List.map_map]
  rw [List.getD_eq_getElem?_getD, List.getElem?_map, List.getElem?_range hi]
  rfl

lemma length_placeOnWall (room : Room) (files : List String) (p g d : ℚ) :
    (placeOnWall room files p g d).length = files.length := by
  unfold placeOnWall
  by_cases h : 0 < files.length
  · rw [if_pos h, List.length_map, List.length_range]
  · rw [if_neg h]
    simp only [List.length_nil]
    omega

lemma doorConsistent_init : DoorConsistent initDoor := rfl

lemma doorConsistent_toggle (s : DoorState) : DoorConsistent (toggleDoor s) := rfl

lemma portraitLayout_eq :
    portraitLayout
      = [⟨-(897/100), 2, -(22/5)⟩, ⟨-(897/100), 2, 0⟩, ⟨-(897/100), 2, 22/5⟩] := by
  norm_num [portraitLayout, placeOnWall, zOf, segment, ROOM, GAP_WORLD_UNITS, PORTRAIT_FILES,
    List.range_succ]

/-- C4: laying out zero frames on a wall yields the empty list and raises
nothing: the `if (portraitCount > 0)` guard makes the portrait block a
total no-op. -/
theorem placeOnWall_nil (room : Room) (p g d : ℚ) :
    placeOnWall room [] p g d = [] := rfl

/-- C2 as stated is false: with the configured room (all extents positive)
and a single portrait file, the placement's z is -4.4, not the span
midpoint 0. -/
theorem single_frame_not_midpoint :
    (placeOnWall ROOM ["IMG_3400.JPG"] (6/10) GAP_WORLD_UNITS (6/100)).map Placement.z
        = [-(22/5)]
    ∧ (-(22/5) : ℚ) ≠ 0 := by
  constructor
  · norm_num [placeOnWall, zOf, segment, ROOM, GAP_WORLD_UNITS, List.range_succ]
  · norm_num

/-- C2 amended: for every room, padding, gap and frame depth, a single
frame is placed at z = -depth/2 + padding + gap, the lower
padding-plus-gap boundary of the wall's span, not its midpoint. -/
theorem single_frame_at_near_corner (room : Room) (file : String) (p g d : ℚ) :
    (placeOnWall room [file] p g d).map Placement.z = [-room.depth / 2 + p + g] := by
  simp [placeOnWall, zOf, segment]

/-- C3 as stated is false: the code subtracts the gap from the span as
well, so the usable span is 8.8 (not 10.8) and the three placements sit at
z = -4.4, 0, 4.4 (not -4.4, 1.0, 6.4). -/
theorem scenario_three_portraits_counterexample :
    portraitLayout.map Placement.z = [-(22/5), 0, 22/5]
    ∧ portraitLayout.map Placement.z ≠ [-(22/5), 1, 32/5]
    ∧ ROOM.depth - (6/10) * 2 - GAP_WORLD_UNITS * 2 = 44/5
    ∧ (44/5 : ℚ) ≠ 54/5 := by
  rw [portraitLayout_eq]
  refine ⟨by norm_num, by norm_num, by norm_num [ROOM, GAP_WORLD_UNITS], by norm_num⟩

/-- C3 amended: with room depth 12, padding 0.6 and gap 1 the usable span
is 12 - 1.2 - 2 = 8.8, and the three portraits sit at z = -4.4, 0, 4.4. -/
theorem scenario_three_portraits :
    ROOM.depth - (6/10) * 2 - GAP_WORLD_UNITS * 2 = 44/5
    ∧ portraitLayout.map Placement.z = [-(22/5), 0, 22/5] := by
  rw [portraitLayout_eq]
  exact ⟨by norm_num [ROOM, GAP_WORLD_UNITS], by norm_num⟩

/-- C9: `openImageModal` with an empty source string is a complete no-op:
the modal state (display, src, alt) is returned unchanged, and on the
freshly created modal the display stays `none`. -/
theorem openImageModal_empty_noop (alt : String) (s : ImageModalState) :
    openImageModal "" alt s = s
    ∧ (openImageModal "" alt initModal).display = "none" := by
  constructor <;> simp [openImageModal, initModal]

/-- C7: a failed texture load leaves the frame state exactly as it was: a
freshly created frame keeps its placeholder material and its placement,
and no error is surfaced to the user. -/
theorem load_failure_keeps_placeholder (s : FrameState) (pl : Placement) (e : String) :
    applyLoad s (.failure e) = s
    ∧ (applyLoad (initFrame pl) (.failure e)).material = .placeholderColor 0x111111
    ∧ (applyLoad (initFrame pl) (.failure e)).placement = pl
    ∧ (applyLoad (initFrame pl) (.failure e)).errorShown = false :=
  ⟨rfl, rfl, rfl, rfl⟩

/-- C8: on every consistent door state (the invariant holds at startup and
is preserved by every toggle), applying `toggleDoor` twice restores both
`doorOpen` and `doorTargetRotation` to their previous values. -/
theorem toggleDoor_involution (s : DoorState) (h : DoorConsistent s) :
    toggleDoor (toggleDoor s) = s := by
  cases s with
  | mk o r =>
    unfold DoorConsistent at h
    cases o <;> simp_all [toggleDoor]

/-- Concrete run of `toggleDoor_involution` at the startup door state. -/
theorem toggleDoor_involution_witness :
    DoorConsistent initDoor ∧ toggleDoor (toggleDoor initDoor) = initDoor :=
  ⟨rfl, toggleDoor_involution initDoor rfl⟩

/-- C6: the layout reads no hidden state: any two environments agreeing on
room, gap, file list, padding and frame depth (even if they differ on the
unrelated mutable globals) produce identical placements; in particular two
runs on identical inputs are identical. -/
theorem layout_deterministic (a b : SceneEnv)
    (hroom : a.room = b.room) (hgap : a.gap = b.gap) (hfiles : a.files = b.files)
    (hpad : a.padding = b.padding) (hd : a.frameDepth = b.frameDepth) :
    layoutInEnv a = layoutInEnv b := by
  unfold layoutInEnv
  rw [hroom, hgap, hfiles, hpad, hd]

/-- Concrete run of `layout_deterministic`: two environments differing only
in the door flag and the popup text give the same placements. -/
theorem layout_deterministic_witness :
    layoutInEnv ⟨ROOM, GAP_WORLD_UNITS, PORTRAIT_FILES, 6/10, 6/100, false, ""⟩
      = layoutInEnv ⟨ROOM, GAP_WORLD_UNITS, PORTRAIT_FILES, 6/10, 6/100, true, "hello"⟩ :=
  layout_deterministic _ _ rfl rfl rfl rfl rfl

/-- C5: the spacing divisor never divides by zero: the one-frame case takes
the explicit `=== 1` guard (segment 0); with two or more frames the divisor
`count - 1` is nonzero and the segment times it recovers the usable span;
and the layout always returns one placement per file. -/
theorem segment_division_safe (room : Room) (files : List String) (p g d : ℚ)
    (h1 : 1 ≤ files.length) :
    (files.length = 1 → segment room.depth p g files.length = 0)
    ∧ (2 ≤ files.length →
        ((files.length : ℚ) - 1 ≠ 0
          ∧ segment room.depth p g files.length * ((files.length : ℚ) - 1)
              = room.depth - p * 2 - g * 2))
    ∧ (placeOnWall room files p g d).length = files.length := by
  refine ⟨fun h => by simp [segment, h], fun h2 => ?_,
    length_placeOnWall room files p g d⟩
  have hc : (2 : ℚ) ≤ (files.length : ℚ) := by exact_mod_cast h2
  have hne : (files.length : ℚ) - 1 ≠ 0 := by linarith
  have hne1 : files.length ≠ 1 := by omega
  rw [segment, if_neg hne1, div_mul_cancel₀ _ hne]
  exact ⟨hne, rfl⟩

/-- Concrete run of `segment_division_safe` on the configured three files. -/
theorem segment_division_safe_witness :
    1 ≤ PORTRAIT_FILES.length
    ∧ (placeOnWall ROOM PORTRAIT_FILES (6/10) GAP_WORLD_UNITS (6/100)).length
        = PORTRAIT_FILES.length :=
  ⟨by decide,
    (segment_division_safe ROOM PORTRAIT_FILES (6/10) GAP_WORLD_UNITS (6/100)
      (by decide)).2.2⟩

/-- C1 as stated is false on the program's only multi-frame layout: the
first of the three portraits sits at z = -4.4, while the spec's formula
(usable span `span - 2p`, offset `edgePadding` alone) puts position 0 at
-5.4, and the first placement is 1.6 from the corner, not 0.6. -/
theorem even_spacing_counterexample :
    zAt ROOM PORTRAIT_FILES (6/10) GAP_WORLD_UNITS (6/100) 0 = -(22/5)
    ∧ specClaimedPosition ROOM.depth (6/10) 3 0 = -(27/5)
    ∧ (-(22/5) : ℚ) ≠ -(27/5)
    ∧ zAt ROOM PORTRAIT_FILES (6/10) GAP_WORLD_UNITS (6/100) 0 - (-(ROOM.depth / 2))
        ≠ 6/10 := by
  refine ⟨?_, by norm_num [specClaimedPosition, ROOM], by norm_num, ?_⟩ <;>
    norm_num [zAt, placeOnWall, zOf, segment, ROOM, GAP_WORLD_UNITS, PORTRAIT_FILES,
      List.range_succ]

/-- C1 amended: for N ≥ 2 frames the placements follow
`z_i = -span/2 + (p + g) + i * usable/(N-1)` with usable span
`span - 2p - 2g`: the first and last placements are exactly `p + g`
(edge padding plus gap-from-wall) from the wall's two corners, and
consecutive placements are equidistant. -/
theorem even_spacing (room : Room) (files : List String) (p g d : ℚ)
    (h2 : 2 ≤ files.length) :
    (∀ i, i < files.length →
        zAt room files p g d i
          = -room.depth / 2 + (p + g)
            + (i : ℚ) * ((room.depth - 2 * p - 2 * g) / ((files.length : ℚ) - 1)))
    ∧ zAt room files p g d 0 - (-(room.depth / 2)) = p + g
    ∧ room.depth / 2 - zAt room files p g d (files.length - 1) = p + g
    ∧ (∀ i, i + 1 < files.length →
        zAt room files p g d (i + 1) - zAt room files p g d i
          = (room.depth - 2 * p - 2 * g) / ((files.length : ℚ) - 1)) := by
  have hne1 : files.length ≠ 1 := by omega
  have hc : (2 : ℚ) ≤ (files.length : ℚ) := by exact_mod_cast h2
  have hne : (files.length : ℚ) - 1 ≠ 0 := by linarith
  have hform : ∀ i, i < files.length →
      zAt room files p g d i
        = -room.depth / 2 + (p + g)
          + (i : ℚ) * ((room.depth - 2 * p - 2 * g) / ((files.length : ℚ) - 1)) := by
    intro i hi
    rw [zAt_eq room files p g d i hi, zOf, segment, if_neg hne1]
    ring
  refine ⟨hform, ?_, ?_, fun i hi => ?_⟩
  · rw [hform 0 (by omega)]
    push_cast
    ring
  · rw [hform (files.length - 1) (by omega)]
    have hcast : ((files.length - 1 : ℕ) : ℚ) = (files.length : ℚ) - 1 := by
      push_cast [Nat.cast_sub (by omega : 1 ≤ files.length)]
      ring
    rw [hcast]
    field_simp
    ring
  · rw [hform (i + 1) hi, hform i (by omega)]
    push_cast
    ring

/-- Concrete run of `even_spacing` on the configured layout: the first
portrait sits edge padding plus gap from the near corner. -/
theorem even_spacing_witness :
    2 ≤ PORTRAIT_FILES.length
    ∧ zAt ROOM PORTRAIT_FILES (6/10) GAP_WORLD_UNITS (6/100) 0 - (-(ROOM.depth / 2))
        = 6/10 + GAP_WORLD_UNITS :=
  ⟨by decide,
    (even_spacing ROOM PORTRAIT_FILES (6/10) GAP_WORLD_UNITS (6/100) (by decide)).2.1⟩

/-- C10: every placement of the configured left-wall portrait layout has
x = -ROOM.width/2 + GAP_WORLD_UNITS + frameDepth/2 and y = ROOM.height/2,
and any other placement of the layout differs from it in its z
coordinate. -/
theorem portraits_share_x_y (pl : Placement) (h : pl ∈ portraitLayout) :
    pl.x = -ROOM.width / 2 + GAP_WORLD_UNITS + (6/100) / 2
    ∧ pl.y = ROOM.height / 2
    ∧ ∀ q, q ∈ portraitLayout → q ≠ pl → q.z ≠ pl.z := by
  rw [portraitLayout_eq] at h
  simp only [List.mem_cons, List.not_mem_nil, or_false] at h
  rcases h with h | h | h <;> subst h <;>
    refine ⟨by norm_num [ROOM, GAP_WORLD_UNITS], by norm_num [ROOM],
      fun q hq hne => ?_⟩ <;>
  · rw [portraitLayout_eq] at hq
    simp only [List.mem_cons, List.not_mem_nil, or_false] at hq
    rcases hq with h | h | h <;> subst h <;>
      first
      | exact absurd rfl hne
      | norm_num

/-- Concrete run of `portraits_share_x_y` at the first portrait placement. -/
theorem portraits_share_x_y_witness :
    (⟨-(897/100), 2, -(22/5)⟩ : Placement) ∈ portraitLayout
    ∧ (⟨-(897/100), 2, -(22/5)⟩ : Placement).y = ROOM.height / 2 := by
  have hm : (⟨-(897/100), 2, -(22/5)⟩ : Placement) ∈ portraitLayout := by
    rw [portraitLayout_eq]
    simp
  exact ⟨hm, (portraits_share_x_y _ hm).2.1⟩

end Museum
